import Mathlib

/-!
Verification development for the KYB/KYC verification engine.

The definitions below are a shallow embedding of the Python sources:
`app/integrations/database.py`, `app/integrations/external_database.py`,
`app/utils/llm.py`, `app/agents/data_acquisition.py`,
`app/agents/result_compilation.py`, `app/agents/kyc/payment_behavior.py`,
`app/agents/kyc/id_selfie.py` and `app/workers/verification_worker.py`.

Conventions used throughout:
* Python dicts with a fixed shape become structures; a missing optional key is
  `Option.none`.
* Machine timestamps are natural numbers (seconds); `datetime.utcnow()` at a
  write is modelled by an explicit `now` argument.
* Decimal provider scores are scaled to integers: a selfie confidence score is
  held in hundredths (0.7 becomes 70), transaction amounts in cents
  (5000 dollars becomes 500000).  Every comparison in the source is strict or
  non-strict on these scaled values exactly as in the source.
* A Python exception is `Except.error`; a `try/except` block is a `match` on
  the embedded computation.
-/

/-- One check datum embedded in an agent result (`name`, `status`, `details`). -/
structure Check where
  name : String
  status : String
  details : String
deriving Repr, DecidableEq

/-- The duck-typed result dict an agent's `run` returns.  `verification_result`
and `reasoning` are the extra keys only the compilation agents set; `.get` on a
missing key is `none`. -/
structure AgentDict where
  agent_type : String
  status : String
  details : String
  checks : List Check := []
  verification_result : Option String := none
  reasoning : Option String := none
deriving Repr, DecidableEq

/-- A row of the `verifications` table (`app/models/verification.py`). -/
structure VerificationRow where
  verification_id : String
  user_id : Option String := none
  business_id : Option String := none
  status : String
  result : Option String := none
  reason : Option String := none
  completed_at : Option Nat := none
deriving Repr, DecidableEq

/-- A row of the `verification_results` table: the columns are exactly
`agent_type`, `status`, `details`, `checks` (`app/models/verification.py`,
class `VerificationResult`). -/
structure StoredResult where
  agent_type : String
  status : String
  details : String
  checks : List Check
deriving Repr, DecidableEq

/-- Python truthiness of an optional string (`if result:`): `None` and the
empty string are falsy. -/
def pyTruthy : Option String → Bool
  | none => false
  | some s => !(s == "")

/-- The two terminal statuses, as listed in
`Database.update_verification_status`. -/
def terminalStatuses : List String := ["completed", "failed"]

/-- `Database.update_verification_status` (`app/integrations/database.py`
lines 167-202): writes `status` unconditionally, writes `result`/`reason` only
when truthy, and sets `completed_at` exactly when the written status is
`completed` or `failed`. -/
def update_verification_status (v : VerificationRow) (now : Nat) (status : String)
    (result reason : Option String) : VerificationRow :=
  { v with
    status := status
    result := if pyTruthy result then result else v.result
    reason := if pyTruthy reason then reason else v.reason
    completed_at := if terminalStatuses.contains status then some now else v.completed_at }

/-- The slice of database state a single verification owns: its
`verifications` row and its append-only `verification_results` rows. -/
structure DbState where
  verification : VerificationRow
  rows : List StoredResult
deriving Repr, DecidableEq

/-- Projection of an agent result dict onto the stored columns. -/
def toStored (ar : AgentDict) : StoredResult :=
  ⟨ar.agent_type, ar.status, ar.details, ar.checks⟩

/-- `Database.store_agent_result` (`app/integrations/database.py` lines
251-296): for a compilation agent with a truthy `verification_result` it first
writes the terminal verification row (`status="completed"`), then in every
case appends the result row. -/
def store_agent_result (st : DbState) (now : Nat) (ar : AgentDict) : DbState :=
  let st1 :=
    if (ar.agent_type == "ResultCompilationAgent"
        || ar.agent_type == "BusinessResultCompilationAgent")
        && pyTruthy ar.verification_result then
      { st with verification :=
          (update_verification_status st.verification now "completed"
            ar.verification_result ar.reasoning) }
    else st
  { st1 with rows := st1.rows ++ [toStored ar] }

/-- Python-level exceptions that the embedded code raises or catches. -/
inductive PyExc where
  | jsonDecodeError (msg : String)
  | attributeError (name : String)
  | typeError (msg : String)
deriving Repr, DecidableEq

/-- Python `str.find(c)`: index of the first occurrence, `-1` when absent. -/
def pyFind (s : String) (c : Char) : Int :=
  match s.data.indexOf? c with
  | some i => (i : Int)
  | none => -1

/-- Python `str.rfind(c)`: index of the last occurrence, `-1` when absent. -/
def pyRfind (s : String) (c : Char) : Int :=
  match s.data.reverse.indexOf? c with
  | some i => ((s.data.length - 1 - i : Nat) : Int)
  | none => -1

/-- Python slice `s[a:b]` for `0 ≤ a ≤ b`. -/
def pySlice (s : String) (a b : Nat) : String :=
  String.mk ((s.data.drop a).take (b - a))

/-- Outcome shapes of `BedrockClient.extract_structured_data`: a parsed JSON
payload, a dict with only `raw_response`, or a dict with `raw_response` and
`parse_error`. -/
inductive ExtractOut (J : Type) where
  | parsed (payload : J)
  | rawOnly (raw_response : String)
  | rawErr (raw_response : String) (parse_error : String)
deriving Repr, DecidableEq

/-- Whether the returned payload carries a `parse_error` field. -/
def ExtractOut.hasParseErrorField {J : Type} : ExtractOut J → Bool
  | .rawErr _ _ => true
  | _ => false

/-- Whether the returned payload carries a `raw_response` field. -/
def ExtractOut.hasRawResponseField {J : Type} : ExtractOut J → Bool
  | .rawOnly _ => true
  | .rawErr _ _ => true
  | _ => false

/-- The JSON-extraction section of `BedrockClient.extract_structured_data`
(`app/utils/llm.py` lines 190-208), parametrised by the model output string
`generation` and by `json.loads` (whose failures are `JSONDecodeError`s, the
only exception class the inner `try` catches).  The result is `Except`-typed
so that an uncaught exception would be visible as `.error`. -/
def extract_structured_data {J : Type} (jsonLoads : String → Except String J)
    (generation : String) : Except PyExc (ExtractOut J) :=
  let json_start := pyFind generation '\x7b'
  let json_end := pyRfind generation '\x7d' + 1
  if (json_start != -1) && (json_start < json_end) then
    let json_str := pySlice generation json_start.toNat json_end.toNat
    match jsonLoads json_str with
    | .ok d => .ok (.parsed d)
    | .error e => .ok (.rawErr generation e)
  else
    .ok (.rawOnly generation)

/-- Spec-level description of the candidate JSON span: the substring from the
first `{` to the last `}` when both exist in that order, tolerating text (for
example a code fence) around it. -/
def braceSpan (s : String) : Option String :=
  match s.data.indexOf? '\x7b' with
  | none => none
  | some i =>
    match s.data.reverse.indexOf? '\x7d' with
    | none => none
    | some jr =>
      let j := s.data.length - 1 - jr
      if i ≤ j then some (String.mk ((s.data.drop i).take (j + 1 - i))) else none

/-- A `json.loads` stand-in that rejects every input, for concrete evaluation
of the surrounding control flow. -/
def jsonLoadsNever : String → Except String Unit :=
  fun _ => .error "Expecting value"

/-- An error raised by a query against the external MySQL store;
`opLike` records whether it is an `OperationalError` (or mentions the pool),
the condition under which `get_business_data` resets its connection pool. -/
structure DbErr where
  opLike : Bool
deriving Repr, DecidableEq

/-- Observable effects of one `ExternalDatabase` call: its returned value, how
many query attempts were made, the backoff sleeps (milliseconds) between
attempts, and how many times the connection pool was reset. -/
structure OpTrace (α : Type) where
  result : α
  attempts : Nat
  sleeps : List Nat
  poolResets : Nat
deriving Repr, DecidableEq

/-- A row of the external `user_kyb_records` table, restricted to the fields
the engine reads; `user_id` is absent from the documented mock record. -/
structure KybRecord where
  id : String
  user_id : Option String := none
  business_name : String := ""
  ein_owner_name : String := ""
  good_standing : Bool := true
deriving Repr, DecidableEq

/-- The documented mock fallback record `ExternalDatabase.get_business_data`
returns after all retry attempts fail (`app/integrations/external_database.py`
lines 162-174); it carries no `user_id` key. -/
def mockBusinessData (business_id : String) : KybRecord :=
  { id := business_id
    user_id := none
    business_name := "Business " ++ business_id ++ " (mock)"
    ein_owner_name := "Owner of Business " ++ business_id
    good_standing := true }

/-- The retry loop of `ExternalDatabase.get_business_data` over the remaining
attempt indices (`for attempt in range(max_retries)`): a successful attempt
returns its row immediately; a failure on the last attempt returns the mock
record; a failure on an earlier attempt sleeps `0.5s * 2^attempt`
(500 * 2^attempt ms) and resets the pool when the error is operational. -/
def get_business_data_go (env : Nat → Except DbErr (Option KybRecord))
    (business_id : String) : List Nat → OpTrace (Option KybRecord)
  | [] => ⟨none, 0, [], 0⟩
  | attempt :: rest =>
    match env attempt with
    | .ok r => ⟨r, 1, [], 0⟩
    | .error e =>
      if rest.isEmpty then
        ⟨some (mockBusinessData business_id), 1, [], 0⟩
      else
        let t := get_business_data_go env business_id rest
        ⟨t.result, t.attempts + 1, (500 * 2 ^ attempt) :: t.sleeps,
          t.poolResets + (if e.opLike then 1 else 0)⟩

/-- `ExternalDatabase.get_business_data` with `max_retries = 3`
(`app/integrations/external_database.py` lines 118-174); `env k` is the
outcome of the query on attempt `k`. -/
def get_business_data (env : Nat → Except DbErr (Option KybRecord))
    (business_id : String) : OpTrace (Option KybRecord) :=
  get_business_data_go env business_id [0, 1, 2]

/-- `ExternalDatabase.get_persona_inquiry_id` (lines 82-116): one attempt, no
retry; any exception is caught and `None` is returned. -/
def get_persona_inquiry_id (env : Except DbErr (Option String)) :
    OpTrace (Option String) :=
  match env with
  | .ok r => ⟨r, 1, [], 0⟩
  | .error _ => ⟨none, 1, [], 0⟩

/-- `ExternalDatabase.get_sift_scores` (lines 176-215): one attempt, no retry;
any exception is caught and `None` is returned.  The row payload is kept
opaque. -/
def get_sift_scores (env : Except DbErr (Option String)) :
    OpTrace (Option String) :=
  match env with
  | .ok r => ⟨r, 1, [], 0⟩
  | .error _ => ⟨none, 1, [], 0⟩

/-- A row of the external `kyb_business_owners` table, restricted to the field
the engine reads per UBO. -/
structure OwnerRec where
  created_for_id : Option String
deriving Repr, DecidableEq

/-- `ExternalDatabase.get_business_owners` (lines 217-263): first calls
`get_business_data` (which never raises), then runs the owners query once with
no retry of its own; any exception yields `[]`. -/
def get_business_owners (bizEnv : Nat → Except DbErr (Option KybRecord))
    (ownersEnv : Except DbErr (List OwnerRec)) (business_id : String) :
    OpTrace (List OwnerRec) :=
  let bd := get_business_data bizEnv business_id
  match bd.result with
  | none => ⟨[], bd.attempts, bd.sleeps, bd.poolResets⟩
  | some rec =>
    if rec.id == "" then ⟨[], bd.attempts, bd.sleeps, bd.poolResets⟩
    else
      match ownersEnv with
      | .ok owners => ⟨owners, bd.attempts + 1, bd.sleeps, bd.poolResets⟩
      | .error _ => ⟨[], bd.attempts + 1, bd.sleeps, bd.poolResets⟩

/-- One provider (Persona) check attached to a `verification/government-id`
item: its `name`, `status`, and the optional `metadata["confidence-score"]`
(held in hundredths: 0.7 is 70). -/
structure PersonaCheck where
  name : String
  status : String
  confidence : Option Nat := none
deriving Repr, DecidableEq

/-- One entry of `persona_data["included"]`. -/
structure PersonaItem where
  type : String
  checks : List PersonaCheck
deriving Repr, DecidableEq

/-- The `id_selfie_comparison` check of the first
`verification/government-id` item, when present (`app/agents/kyc/id_selfie.py`
lines 23-32). -/
def selfieCheckOf (persona_included : List PersonaItem) : Option PersonaCheck :=
  let govt := persona_included.find? (fun it => it.type == "verification/government-id")
  ((govt.map (·.checks)).getD []).find? (fun c => c.name == "id_selfie_comparison")

/-- `selfie_check.get("status", "not_applicable")`. -/
def selfieStatusOf (persona_included : List PersonaItem) : String :=
  match selfieCheckOf persona_included with
  | some c => c.status
  | none => "not_applicable"

/-- `selfie_check.get("metadata", {}).get("confidence-score", 0)`, in
hundredths. -/
def selfieConfidenceOf (persona_included : List PersonaItem) : Nat :=
  match selfieCheckOf persona_included with
  | some c => c.confidence.getD 0
  | none => 0

/-- `IdSelfieVerificationAgent.run` (`app/agents/kyc/id_selfie.py` lines
10-83), parametrised by the persisted `persona_data["included"]` list and by
the outcome of the trailing LLM call (whose failure is caught by the agent's
outer `except`, yielding the error dict with no checks).  The threshold 70 is
the source's `score_threshold = 0.7` in hundredths. -/
def idSelfieRun (persona_included : List PersonaItem)
    (llm : Except String String) : AgentDict :=
  let selfie_status := selfieStatusOf persona_included
  let confidence_score := selfieConfidenceOf persona_included
  let status :=
    if (selfie_status == "passed") && (70 ≤ confidence_score) then "passed" else "failed"
  let checks : List Check :=
    [ { name := "ID to Selfie Comparison", status := status,
        details := "ID to selfie comparison" },
      { name := "Facial Anomalies",
        status := if status == "passed" then "passed" else "failed",
        details := "Facial anomalies check" } ]
  match llm with
  | .ok s =>
    { agent_type := "IdSelfieVerificationAgent", status := "success",
      details := s, checks := checks }
  | .error e =>
    { agent_type := "IdSelfieVerificationAgent", status := "error",
      details := "Error during ID selfie verification: " ++ e, checks := [] }

/-- One transaction from a bank account's `last_transactions`: amount in
cents, date as seconds since the epoch (the source parses ISO strings with
`datetime.fromisoformat`). -/
structure Txn where
  amount : Int
  date : Nat
deriving Repr, DecidableEq

/-- One entry of `user_data["bank_accounts"]`. -/
structure BankAccount where
  verified : Bool
  last_transactions : List Txn
deriving Repr, DecidableEq

/-- Insertion step of a date-ascending sort. -/
def insertByDate (t : Txn) : List Txn → List Txn
  | [] => [t]
  | u :: us => if t.date ≤ u.date then t :: u :: us else u :: insertByDate t us

/-- Sort by ascending date (Python `sorted` with the date key; the relative
order of equal dates is immaterial to every comparison made on the sorted
list, which only looks at lengths of filters and at adjacent date gaps of
less than 600 s, gaps that equal-dated neighbours satisfy in any order). -/
def sortByDate : List Txn → List Txn
  | [] => []
  | t :: ts => insertByDate t (sortByDate ts)

/-- Transactions of all accounts concatenated, then sorted by date
(`app/agents/kyc/payment_behavior.py` lines 42-53). -/
def sortedTransactionsOf (bank_accounts : List BankAccount) : List Txn :=
  sortByDate ((bank_accounts.map (·.last_transactions)).flatten)

/-- `large_transactions`: transactions with amount above 5000 dollars
(500000 cents), from the sorted list (line 56). -/
def largeTransactionsOf (sorted : List Txn) : List Txn :=
  sorted.filter (fun t => 500000 < t.amount)

/-- `rapid_transactions`: adjacent pairs of the date-sorted list less than 10
minutes (600 s) apart (lines 59-63). -/
def rapidTransactionsOf (sorted : List Txn) : List (Txn × Txn) :=
  (sorted.zip sorted.tail).filter (fun p => p.2.date - p.1.date < 600)

/-- The `Transaction Pattern Analysis` check (lines 48-80):
`not_applicable` on an empty history, otherwise `failed` exactly when there
are more than 2 large transactions or more than 1 rapid adjacent pair. -/
def transactionPatternCheck (bank_accounts : List BankAccount) : Check :=
  let all_transactions := (bank_accounts.map (·.last_transactions)).flatten
  if all_transactions.isEmpty then
    { name := "Transaction Pattern Analysis", status := "not_applicable",
      details := "No transaction history available" }
  else
    let sorted := sortedTransactionsOf bank_accounts
    let transaction_risk :=
      (2 < (largeTransactionsOf sorted).length)
      || (1 < (rapidTransactionsOf sorted).length)
    { name := "Transaction Pattern Analysis",
      status := if transaction_risk then "failed" else "passed",
      details := "Large and rapid transaction counts" }

/-- `PaymentBehaviorAgent.run` (`app/agents/kyc/payment_behavior.py` lines
11-126), parametrised by the persisted bank accounts, the Sift
`payment_abuse` score, and the outcome of the trailing LLM call (whose
failure is caught by the outer `except`, yielding the error dict). -/
def paymentBehaviorRun (bank_accounts : List BankAccount)
    (payment_abuse : Int) (llm : Except String String) : AgentDict :=
  let bank_verified := bank_accounts.any (·.verified)
  let check1 : Check :=
    { name := "Bank Account Verification",
      status := if bank_verified then "passed" else "failed",
      details := "Verified bank accounts" }
  let check2 := transactionPatternCheck bank_accounts
  let check3 : Check :=
    { name := "Sift Payment Abuse Score",
      status := if 50 < payment_abuse then "failed" else "passed",
      details := "Payment abuse score" }
  match llm with
  | .ok s =>
    { agent_type := "PaymentBehaviorAgent", status := "success",
      details := s, checks := [check1, check2, check3] }
  | .error e =>
    { agent_type := "PaymentBehaviorAgent", status := "error",
      details := "Error during payment behavior analysis: " ++ e, checks := [] }

/-- External-world outcomes an individual (KYC) data acquisition touches:
the inquiry-id query, the Sift-scores query, the Persona API fetch (which can
raise), and whether persisting the `VerificationInput` rows succeeds. -/
structure KycEnv where
  inquiry : Except DbErr (Option String)
  sift : Except DbErr (Option String)
  persona : String → Except String String
  storeOk : Bool

/-- The `user` input payload `DataAcquisitionAgent._acquire_user_data`
assembles (`app/agents/data_acquisition.py` lines 90-133).  The method's own
`except` swallows every error and still produces a basic payload, so it never
raises. -/
structure UserInputData where
  user_id : String
  persona_enquiry_id : Option String := none
  persona_data : Option String := none
  sift_data : Option String := none
deriving Repr, DecidableEq

/-- `DataAcquisitionAgent._acquire_user_data`: the inquiry id and Sift row
come back as `None` on query failure (see `get_persona_inquiry_id` and
`get_sift_scores`); only a raising Persona fetch reaches the method's
`except`, which falls back to the basic payload. -/
def acquireUserData (env : KycEnv) (user_id : String) : UserInputData :=
  let pid := (get_persona_inquiry_id env.inquiry).result
  let sift := (get_sift_scores env.sift).result
  match pid with
  | none => { user_id := user_id, persona_enquiry_id := none,
              persona_data := none, sift_data := sift }
  | some iid =>
    match env.persona iid with
    | .ok pdata => { user_id := user_id, persona_enquiry_id := some iid,
                     persona_data := some pdata, sift_data := sift }
    | .error _ => { user_id := user_id }

/-- `DataAcquisitionAgent.run` for a KYC subject (`app/agents/data_acquisition.py`
lines 48-88): acquires the user payload (never raises), then stores each
`data_type`; only a raising store reaches the outer `except`, producing the
error dict. -/
def dataAcquisitionRunKyc (env : KycEnv) (user_id : String) :
    AgentDict × List (String × UserInputData) :=
  let payload := acquireUserData env user_id
  if env.storeOk then
    ({ agent_type := "DataAcquisitionAgent", status := "success",
       details := "Successfully acquired data from all sources" },
     [("user", payload)])
  else
    ({ agent_type := "DataAcquisitionAgent", status := "error",
       details := "Error during data acquisition" }, [])

/-- The JSON object the compilation prompt asks the LLM for, restricted to
the keys the engine reads back (`.get` on a missing key yields the coded
default). -/
structure LlmAnalysis where
  verification_result : Option String := none
  reasoning : Option String := none
deriving Repr, DecidableEq

/-- `ResultCompilationAgent.run` (`app/agents/result_compilation.py` lines
10-95), parametrised by the stored rows it loads and by the LLM call outcome.
The Bool records whether the LLM was invoked: when any loaded row has
`status == "error"` the agent returns the fixed `failed` dict *before* the
LLM call. -/
def resultCompilationRun (rows : List StoredResult)
    (llm : Except String LlmAnalysis) : AgentDict × Bool :=
  if rows.any (fun r => r.status == "error") then
    ({ agent_type := "ResultCompilationAgent", status := "error",
       details := "Errors occurred in agents",
       verification_result := some "failed",
       reasoning := some "Cannot complete verification due to errors in processing" },
     false)
  else
    match llm with
    | .ok a =>
      ({ agent_type := "ResultCompilationAgent", status := "success",
         details := "Successfully compiled verification results",
         verification_result := some (a.verification_result.getD "failed"),
         reasoning := some (a.reasoning.getD "Insufficient data to complete verification") },
       true)
    | .error e =>
      ({ agent_type := "ResultCompilationAgent", status := "error",
         details := "Error during result compilation: " ++ e,
         verification_result := some "failed",
         reasoning := some ("Error during compilation: " ++ e) },
       true)

/-- The decision string the worker reads off the compilation dict:
`final_result.get("verification_result", "failed")` after
`resultCompilationRun`, as a function of the LLM outcome alone. -/
def llmDecision (llm : Except String LlmAnalysis) : String :=
  match llm with
  | .ok a => a.verification_result.getD "failed"
  | .error _ => "failed"

/-- The ten fan-out agent types of the individual workflow
(`app/workers/verification_worker.py` lines 111-122). -/
def kycAgentTypes : List String :=
  ["InitialDiligence", "GovtIdVerification", "IdSelfieVerification",
   "AamvaVerification", "EmailPhoneIpVerification", "PaymentBehaviorAgent",
   "LoginActivitiesAgent", "SiftVerificationAgent", "IdCheckAgent",
   "OfacVerificationAgent"]

/-- Materialisation step of `asyncio.gather(..., return_exceptions=True)`
(lines 135-156): an exception becomes the per-agent error dict, a returned
dict is kept. -/
def materializeOutcome (agent_type : String) : Except String AgentDict → AgentDict
  | .ok r => r
  | .error e =>
    { agent_type := agent_type, status := "error",
      details := "Agent execution error: " ++ e, checks := [] }

/-- Observable outcome of one `run_kyc_verification` job: the verification's
DB slice, the stored inputs, the returned status string, and whether the
compilation step invoked the LLM. -/
structure KycOutcome where
  db : DbState
  inputs : List (String × UserInputData)
  ret : String
  llmInvoked : Bool

/-- `run_kyc_verification` (`app/workers/verification_worker.py` lines
47-205), parametrised by the acquisition environment, the fan-out agents'
outcomes (`agentOf t` is agent `t` raising or returning its dict), and the
compilation LLM outcome.  Stores every materialised result, short-circuits to
`failed` only on an acquisition error dict, and otherwise always runs and
stores the compilation before writing the terminal row. -/
def run_kyc_verification (env : KycEnv) (agentOf : String → Except String AgentDict)
    (llm : Except String LlmAnalysis) (v0 : VerificationRow) : KycOutcome :=
  let v1 := update_verification_status v0 0 "processing" none none
  let acq := dataAcquisitionRunKyc env (v0.user_id.getD "")
  let st1 : DbState := store_agent_result ⟨v1, []⟩ 0 acq.1
  if acq.1.status == "error" then
    let v2 := update_verification_status st1.verification 0 "failed"
      (some "failed") (some "Data acquisition failed")
    ⟨⟨v2, st1.rows⟩, acq.2, "failed", false⟩
  else
    let st2 := kycAgentTypes.foldl
      (fun st t => store_agent_result st 0 (materializeOutcome t (agentOf t))) st1
    let comp := resultCompilationRun st2.rows llm
    let st3 := store_agent_result st2 0 comp.1
    let v3 := update_verification_status st3.verification 0 "completed"
      (some (comp.1.verification_result.getD "failed"))
      (some (comp.1.reasoning.getD ""))
    ⟨⟨v3, st3.rows⟩, acq.2, "completed", comp.2⟩

/-- One poll of the UBO join (`_wait_for_ubo_verifications` lines 486-494):
look up each child and count it once its status is `completed` or `failed`;
a child that is not found never counts.  `children` gives each child's status
as seen at poll index `k` (polls are 30 s apart). -/
def allUboTerminalAt (children : List (Nat → Option String)) (k : Nat) : Bool :=
  (children.countP (fun c =>
    match c k with
    | some s => terminalStatuses.contains s
    | none => false)) == children.length

/-- The polling loop of `_wait_for_ubo_verifications`
(`app/workers/verification_worker.py` lines 469-502): while
`elapsed < 1800` seconds, poll at index `elapsed / 30`, return the poll index
on success, otherwise sleep 30 s and continue; fall through (`none`) on
timeout.  The fuel argument only bounds the recursion and exceeds the 60
iterations the guard allows. -/
def waitGo (children : List (Nat → Option String)) : Nat → Nat → Option Nat
  | _, 0 => none
  | elapsed, fuel + 1 =>
    if elapsed < 1800 then
      if allUboTerminalAt children (elapsed / 30) then some (elapsed / 30)
      else waitGo children (elapsed + 30) fuel
    else none

/-- `_wait_for_ubo_verifications` with the coded `timeout_minutes = 30` and
`check_interval = 30`: `some k` means it returned at poll `k` (after `30 * k`
seconds of sleeping), `none` that the 30-minute deadline elapsed.  The source
returns `None` on both paths; the poll index is the instrumented view of
which path was taken and when. -/
def wait_for_ubo_verifications (children : List (Nat → Option String)) : Option Nat :=
  waitGo children 0 61

/-- A Python attribute value read off a stored result row. -/
inductive PyVal where
  | str (s : String)
  | checksVal (c : List Check)
deriving Repr, DecidableEq

/-- String coercion of an attribute value, `none` for non-strings. -/
def PyVal.asStr : PyVal → Option String
  | .str s => some s
  | _ => none

/-- Python attribute access on a `VerificationResult` row: the mapped columns
are exactly `agent_type`, `status`, `details`, `checks`; any other name
raises `AttributeError` (`app/models/verification.py` lines 54-69). -/
def StoredResult.getattr (r : StoredResult) (name : String) : Except PyExc PyVal :=
  if name == "agent_type" then .ok (.str r.agent_type)
  else if name == "status" then .ok (.str r.status)
  else if name == "details" then .ok (.str r.details)
  else if name == "checks" then .ok (.checksVal r.checks)
  else .error (.attributeError name)

/-- Rendering of an exception as `str(e)`. -/
def PyExc.message : PyExc → String
  | .jsonDecodeError m => m
  | .attributeError n => "object has no attribute " ++ n
  | .typeError m => m

/-- What `BusinessResultCompilationAgent` sees of one UBO child in the DB:
its id, its `Verification` row if any, and its stored agent-result rows. -/
structure UboDbView where
  vid : String
  verification : Option VerificationRow
  rows : List StoredResult
deriving Repr, DecidableEq

/-- One entry of the `ubo_results` list the business compiler assembles. -/
structure UboResult where
  verification_id : String
  status : String
  result : Option String
  reasoning : Option String
deriving Repr, DecidableEq

/-- The UBO-results loop of `BusinessResultCompilationAgent.run`
(`app/agents/result_compilation.py` lines 140-158): for each child, when a
stored `ResultCompilationAgent` row exists the code reads its
`verification_result` and `reasoning` attributes, which the row type does not
define. -/
def buildUboResults (uboData : List UboDbView) : Except PyExc (List UboResult) :=
  uboData.mapM (fun u => do
    let status := match u.verification with
      | some v => v.status
      | none => "unknown"
    match u.rows.find? (fun r => r.agent_type == "ResultCompilationAgent") with
    | some r => do
      let vr ← r.getattr "verification_result"
      let rs ← r.getattr "reasoning"
      pure (⟨u.vid, status, vr.asStr, rs.asStr⟩ : UboResult)
    | none => pure (⟨u.vid, status, none, none⟩ : UboResult))

/-- `BusinessResultCompilationAgent.run` (`app/agents/result_compilation.py`
lines 118-227).  The UBO loop runs before the business-error check; any
exception it raises is caught by the outer `except`, which returns the error
dict with `verification_result = "failed"`.  The Bool records whether the LLM
was invoked. -/
def businessResultCompilationRun (bizRows : List StoredResult)
    (uboData : List UboDbView) (llm : Except String LlmAnalysis) :
    AgentDict × Bool :=
  match buildUboResults uboData with
  | .error e =>
    ({ agent_type := "BusinessResultCompilationAgent", status := "error",
       details := "Error during business result compilation: " ++ e.message,
       verification_result := some "failed",
       reasoning := some ("Error during compilation: " ++ e.message) }, false)
  | .ok _ubo_results =>
    if bizRows.any (fun r => r.status == "error") then
      ({ agent_type := "BusinessResultCompilationAgent", status := "error",
         details := "Errors occurred in business agents",
         verification_result := some "failed",
         reasoning := some "Cannot complete business verification due to errors in processing" },
       false)
    else
      match llm with
      | .ok a =>
        ({ agent_type := "BusinessResultCompilationAgent", status := "success",
           details := "Successfully compiled business verification results",
           verification_result := some (a.verification_result.getD "failed"),
           reasoning := some (a.reasoning.getD "Insufficient data to complete verification") },
         true)
      | .error e =>
        ({ agent_type := "BusinessResultCompilationAgent", status := "error",
           details := "Error during business result compilation: " ++ e,
           verification_result := some "failed",
           reasoning := some ("Error during compilation: " ++ e) },
         true)

/-- Steps 4-6 of `run_business_verification`
(`app/workers/verification_worker.py` lines 361-396): wait for the UBO
children (the wait's return value is discarded by the worker — the poll index
is kept here only as an observation), then run, store and apply the business
compilation unconditionally. -/
def businessTail (st : DbState) (children : List (Nat → Option String))
    (uboData : List UboDbView) (llm : Except String LlmAnalysis) :
    DbState × Option Nat :=
  let w := wait_for_ubo_verifications children
  let comp := businessResultCompilationRun st.rows uboData llm
  let st2 := store_agent_result st 0 comp.1
  let v := update_verification_status st2.verification 0 "completed"
    (some (comp.1.verification_result.getD "failed"))
    (some (comp.1.reasoning.getD ""))
  (⟨v, st2.rows⟩, w)

/-- The call `external_db.get_persona_inquiry_id(user_id, kind)` as written at
`app/agents/data_acquisition.py` lines 167 and 203: the method is declared
with the single parameter `user_id` (`app/integrations/external_database.py`
line 82), so passing the `kind` argument raises `TypeError` before any query
runs. -/
def get_persona_inquiry_id_two_arg_call (user_id kind : String) :
    Except PyExc (Option String) :=
  .error (.typeError
    "get_persona_inquiry_id takes 2 positional arguments but 3 were given")

/-- One entry of the acquired `business.ubos[]` list as the worker reads it:
`ubo.get("ubo_info", {}).get("created_for_id")`. -/
structure UboEntry where
  ubo_info : OwnerRec
deriving Repr, DecidableEq

/-- The `business` input payload restricted to what the worker's UBO loop
reads. -/
structure BusinessPayload where
  business_id : String
  ubos : List UboEntry
deriving Repr, DecidableEq

/-- The body of `DataAcquisitionAgent._acquire_business_data`
(`app/agents/data_acquisition.py` lines 135-242) up to its KYB inquiry-id
call.  The two-argument call at line 167 always raises, so the remainder of
the method (Persona extraction, owners fetch, and the per-UBO assembly loop
of lines 190-231, whose own inquiry call at line 203 has the same extra
argument) is unreachable. -/
def acquireBusinessDataBody (bizEnv : Nat → Except DbErr (Option KybRecord))
    (business_id : String) : Except PyExc BusinessPayload := do
  match (get_business_data bizEnv business_id).result with
  | none => pure ⟨business_id, []⟩
  | some rec =>
    match rec.user_id with
    | none => pure ⟨business_id, []⟩
    | some uid => do
      let _pid ← get_persona_inquiry_id_two_arg_call uid "kyb"
      pure ⟨business_id, []⟩

/-- `DataAcquisitionAgent._acquire_business_data` including its catch-all
`except` (lines 236-242), which falls back to the basic payload with
`ubos = []`. -/
def acquire_business_data (bizEnv : Nat → Except DbErr (Option KybRecord))
    (business_id : String) : BusinessPayload :=
  match acquireBusinessDataBody bizEnv business_id with
  | .ok p => p
  | .error _ => ⟨business_id, []⟩

/-- Durable side effects of the worker's UBO fan-out loop, in program order. -/
inductive BizEvent where
  | createVerification (verification_id user_id status : String)
  | commitUboLink (parent_verification_id ubo_user_id child_verification_id : String)
  | enqueueJob (fn child_verification_id user_id parent_business_id ubo_role : String)
deriving Repr, DecidableEq

/-- The UBO fan-out loop of `run_business_verification`
(`app/workers/verification_worker.py` lines 281-319): for each entry with a
`created_for_id`, create the child verification row in state `queued`, commit
the UBO link, then (only when a Redis connection is present) enqueue the
child KYC job whose payload carries the parent business id; entries without a
user id are passed over.  `gen` supplies the generated child uuids. -/
def uboFanoutGo (gen : Nat → String) (business_id parentVid : String)
    (redis : Bool) : List UboEntry → Nat → List BizEvent × List String
  | [], _ => ([], [])
  | u :: rest, k =>
    match u.ubo_info.created_for_id with
    | none => uboFanoutGo gen business_id parentVid redis rest k
    | some uid =>
      let vid := gen k
      let evs := [BizEvent.createVerification vid uid "queued",
                  BizEvent.commitUboLink parentVid uid vid]
        ++ (if redis then
              [BizEvent.enqueueJob "run_kyc_verification" vid uid business_id "UBO"]
            else [])
      let t := uboFanoutGo gen business_id parentVid redis rest (k + 1)
      (evs ++ t.1, vid :: t.2)

/-- The UBO fan-out loop started at the first generated uuid. -/
def uboFanout (gen : Nat → String) (business_id parentVid : String)
    (redis : Bool) (ubos : List UboEntry) : List BizEvent × List String :=
  uboFanoutGo gen business_id parentVid redis ubos 0

/-- The claim-level "two transactions within 10 minutes of each other"
predicate over a transaction list. -/
def withinTenMinutesPair (l : List Txn) : Prop :=
  ∃ t1 ∈ l, ∃ t2 ∈ l, t1 ≠ t2 ∧ max t1.date t2.date - min t1.date t2.date < 600

/-- Concrete inputs used to evaluate the models on specific records. -/
def c7PassingAccounts : List BankAccount :=
  [{ verified := true,
     last_transactions := [{ amount := 100000, date := 0 },
                           { amount := 100000, date := 300 }] }]

/-- Three transactions inside an 8-minute window, one of 6000 dollars. -/
def c7RapidAccounts : List BankAccount :=
  [{ verified := true,
     last_transactions := [{ amount := 600000, date := 0 },
                           { amount := 10000, date := 240 },
                           { amount := 10000, date := 480 }] }]

/-- A provider government-id item whose selfie comparison failed with a high
confidence score (0.90). -/
def c8Included : List PersonaItem :=
  [{ type := "verification/government-id",
     checks := [{ name := "id_selfie_comparison", status := "failed",
                  confidence := some 90 }] }]

theorem store_agent_result_rows (st : DbState) (now : Nat) (ar : AgentDict) :
    (store_agent_result st now ar).rows = st.rows ++ [toStored ar] := by
  unfold store_agent_result
  split <;> rfl

theorem update_verification_status_status (v : VerificationRow) (now : Nat)
    (s : String) (r rsn : Option String) :
    (update_verification_status v now s r rsn).status = s := rfl

/-- C9: `update_verification_status` sets `completed_at` exactly on the
terminal statuses `completed` and `failed` (including failure), and a write of
a non-terminal status leaves `completed_at` untouched; consequently, starting
from a row satisfying `completed_at` set iff status terminal, and under the
monotone status graph (a terminal row is only ever rewritten terminal), the
updated row again has `completed_at` set iff its status is terminal. -/
theorem C9_completed_at_iff_terminal (v : VerificationRow) (now : Nat) (s : String)
    (r rsn : Option String)
    (hinv : v.completed_at.isSome = terminalStatuses.contains v.status)
    (hmono : terminalStatuses.contains v.status = true →
      terminalStatuses.contains s = true) :
    (update_verification_status v now s r rsn).completed_at.isSome
        = terminalStatuses.contains s
    ∧ (update_verification_status v now s r rsn).completed_at
        = (if terminalStatuses.contains s then some now else v.completed_at) := by
  refine ⟨?_, rfl⟩
  unfold update_verification_status
  cases hs : terminalStatuses.contains s with
  | true => simp [hs]
  | false =>
    simp only [hs, if_false, Bool.false_eq_true, hinv]
    cases hcv : terminalStatuses.contains v.status with
    | true =>
      have hst := hmono hcv
      rw [hs] at hst
      exact Bool.noConfusion hst
    | false => rfl

/-- Witness for C9 at a concrete update of a processing row to `failed`. -/
theorem C9_witness :
    (update_verification_status
      { verification_id := "v1", user_id := some "u1", status := "processing" }
      5 "failed" (some "failed") (some "Data acquisition failed")).completed_at.isSome
    = terminalStatuses.contains "failed" :=
  (C9_completed_at_iff_terminal
    { verification_id := "v1", user_id := some "u1", status := "processing" }
    5 "failed" (some "failed") (some "Data acquisition failed")
    (by decide) (by decide)).1

/-- C5 counterexample: a failing `get_persona_inquiry_id` query makes exactly
one attempt, performs no backoff sleep, and returns `None` rather than any
mock fallback record. -/
theorem C5_counterexample :
    (get_persona_inquiry_id (.error { opLike := true })).result = none
    ∧ (get_persona_inquiry_id (.error { opLike := true })).attempts = 1
    ∧ (get_persona_inquiry_id (.error { opLike := true })).sleeps = [] :=
  ⟨rfl, rfl, rfl⟩

/-- C5 (amended): only `get_business_data` retries — up to three attempts with
backoff 500·2^attempt ms, a pool reset per operational error, and the mock
fallback after the last failure; a failure part-way is retried to success.
`get_persona_inquiry_id` and `get_sift_scores` make exactly one attempt and
return `None` on failure; `get_business_owners` returns `[]` when its owners
query fails. -/
theorem C5_amended :
    (∀ (e : DbErr) (bid : String),
      get_business_data (fun _ => .error e) bid
        = ⟨some (mockBusinessData bid), 3, [500, 1000], if e.opLike then 2 else 0⟩)
    ∧ (∀ (e : DbErr) (r : Option KybRecord) (bid : String),
      get_business_data (fun k => if k == 0 then .error e else .ok r) bid
        = ⟨r, 2, [500], if e.opLike then 1 else 0⟩)
    ∧ (∀ e : DbErr, get_persona_inquiry_id (.error e) = ⟨none, 1, [], 0⟩)
    ∧ (∀ e : DbErr, get_sift_scores (.error e) = ⟨none, 1, [], 0⟩)
    ∧ (∀ (e : DbErr) (benv : Nat → Except DbErr (Option KybRecord)) (bid : String),
      (get_business_owners benv (.error e) bid).result = []) := by
  refine ⟨?_, ?_, ?_, ?_, ?_⟩
  · intro e bid
    obtain ⟨b⟩ := e
    cases b <;> rfl
  · intro e r bid
    obtain ⟨b⟩ := e
    cases b <;> rfl
  · intro e
    rfl
  · intro e
    rfl
  · intro e benv bid
    unfold get_business_owners
    dsimp only
    split
    · rfl
    · split <;> rfl

/-- C6 counterexample: on the brace-free malformed output `"hello"` the
extraction returns a payload with only `raw_response` — no `parse_error`
accompanies it, contrary to the claim that any parse failure yields both. -/
theorem C6_counterexample :
    extract_structured_data jsonLoadsNever "hello" = .ok (.rawOnly "hello")
    ∧ ExtractOut.hasParseErrorField (ExtractOut.rawOnly (J := Unit) "hello") = false :=
  ⟨rfl, rfl⟩

/-- C6 (amended): `extract_structured_data` never raises on any model output:
when a first-`{`-to-last-`}` span exists (also inside a fenced block) it
parses that span, returning the parsed payload on success and
`raw_response`/`parse_error` on failure; when no such span exists it returns
`raw_response` alone. -/
theorem C6_amended {J : Type} (jsonLoads : String → Except String J) (g : String) :
    extract_structured_data jsonLoads g = .ok (
      match braceSpan g with
      | none => .rawOnly g
      | some sp =>
        match jsonLoads sp with
        | .ok d => .parsed d
        | .error e => .rawErr g e) := by
  unfold extract_structured_data braceSpan pyFind pyRfind pySlice
  cases hi : g.data.indexOf? '\x7b' with
  | none => rfl
  | some i =>
    cases hj : g.data.reverse.indexOf? '\x7d' with
    | none =>
      dsimp only
      split
      next h =>
        exfalso
        simp only [Bool.and_eq_true, bne_iff_ne, ne_eq, decide_eq_true_eq] at h
        omega
      next h => rfl
    | some jr =>
      dsimp only
      by_cases hij : i ≤ g.data.length - 1 - jr
      · rw [if_pos hij]
        split
        next h =>
          have ht1 : ((i : Int)).toNat = i := by omega
          have ht2 : (((g.data.length - 1 - jr : Nat) : Int) + 1).toNat
              = g.data.length - 1 - jr + 1 := by omega
          rw [ht1, ht2]
          dsimp only
          cases jsonLoads (String.mk ((g.data.drop i).take (g.data.length - 1 - jr + 1 - i)))
            <;> rfl
        next h =>
          exfalso
          simp only [Bool.and_eq_true, bne_iff_ne, ne_eq, decide_eq_true_eq] at h
          omega
      · rw [if_neg hij]
        split
        next h =>
          exfalso
          simp only [Bool.and_eq_true, bne_iff_ne, ne_eq, decide_eq_true_eq] at h
          omega
        next h => rfl

/-- C8 counterexample: a provider `id_selfie_comparison` check whose own
status is `failed` but whose confidence score is 0.90 (at least 0.7) still
yields `ID to Selfie Comparison = failed`, contrary to the claim that the
check passes exactly when the score is at least 0.7. -/
theorem C8_counterexample :
    ((idSelfieRun c8Included (.ok "analysed")).checks.find?
        (fun ck => ck.name == "ID to Selfie Comparison")).map (·.status) = some "failed"
    ∧ 70 ≤ selfieConfidenceOf c8Included :=
  ⟨rfl, by decide⟩

/-- C8 (amended): the `ID to Selfie Comparison` check passes exactly when the
provider's selfie-comparison check has status `passed` *and* its confidence
score is at least 0.7; it is `failed` otherwise. -/
theorem C8_amended (inc : List PersonaItem) (s : String) :
    ∃ c : Check,
      (idSelfieRun inc (.ok s)).checks.find?
          (fun ck => ck.name == "ID to Selfie Comparison") = some c
      ∧ (c.status = "passed" ↔
          (selfieStatusOf inc = "passed" ∧ 70 ≤ selfieConfidenceOf inc)) := by
  refine ⟨{ name := "ID to Selfie Comparison",
            status := if (selfieStatusOf inc == "passed")
                && decide (70 ≤ selfieConfidenceOf inc) then "passed" else "failed",
            details := "ID to selfie comparison" }, rfl, ?_⟩
  by_cases hs : selfieStatusOf inc = "passed" <;>
    by_cases hc : 70 ≤ selfieConfidenceOf inc <;>
      simp [hs, hc]

/-- C7 counterexample: two small transactions 5 minutes apart are "at least 2
transactions within 10 minutes of each other", yet `Transaction Pattern
Analysis` passes, because the source flags only *more than one* rapid
adjacent pair. -/
theorem C7_counterexample :
    (transactionPatternCheck c7PassingAccounts).status = "passed"
    ∧ withinTenMinutesPair ((c7PassingAccounts.map (·.last_transactions)).flatten) := by
  refine ⟨rfl, ⟨{ amount := 100000, date := 0 }, by decide,
    { amount := 100000, date := 300 }, by decide, by decide, by decide⟩⟩

/-- C7 (amended): on a non-empty transaction history, `Transaction Pattern
Analysis` is `failed` exactly when more than 2 transactions exceed 5000
dollars or more than 1 adjacent pair of the date-sorted history lies within
10 minutes; three transactions inside 8 minutes give two such pairs, so the
claim's rapid-transaction scenario still fails. -/
theorem C7_amended (bank_accounts : List BankAccount) (pa : Int) (s : String)
    (h : ((bank_accounts.map (·.last_transactions)).flatten) ≠ []) :
    ∃ c : Check,
      (paymentBehaviorRun bank_accounts pa (.ok s)).checks.find?
          (fun ck => ck.name == "Transaction Pattern Analysis") = some c
      ∧ (c.status = "failed" ↔
          (2 < (largeTransactionsOf (sortedTransactionsOf bank_accounts)).length
           ∨ 1 < (rapidTransactionsOf (sortedTransactionsOf bank_accounts)).length)) := by
  have hne : ((bank_accounts.map (·.last_transactions)).flatten).isEmpty = false := by
    cases hl : (bank_accounts.map (·.last_transactions)).flatten with
    | nil => exact absurd hl h
    | cons a as => rfl
  refine ⟨{ name := "Transaction Pattern Analysis",
            status := if (decide (2 < (largeTransactionsOf
                  (sortedTransactionsOf bank_accounts)).length))
                || (decide (1 < (rapidTransactionsOf
                  (sortedTransactionsOf bank_accounts)).length)) then "failed" else "passed",
            details := "Large and rapid transaction counts" }, ?_, ?_⟩
  · unfold paymentBehaviorRun transactionPatternCheck
    dsimp only
    rw [hne]
    rfl
  · by_cases h1 : 2 < (largeTransactionsOf (sortedTransactionsOf bank_accounts)).length <;>
      by_cases h2 : 1 < (rapidTransactionsOf (sortedTransactionsOf bank_accounts)).length <;>
        simp [h1, h2]

/-- Witness for C7 at the rapid-transaction scenario: three transactions
within 8 minutes, one of 6000 dollars, yield `failed`. -/
theorem C7_witness :
    ((paymentBehaviorRun c7RapidAccounts 0 (.ok "analysed")).checks.find?
        (fun ck => ck.name == "Transaction Pattern Analysis")).map (·.status)
      = some "failed" := by
  obtain ⟨c, hf, hiff⟩ := C7_amended c7RapidAccounts 0 "analysed" (by decide)
  rw [hf]
  exact congrArg some (hiff.mpr (Or.inr (by decide)))

theorem dataAcquisitionRunKyc_agent_type (env : KycEnv) (uid : String) :
    (dataAcquisitionRunKyc env uid).1.agent_type = "DataAcquisitionAgent" := by
  unfold dataAcquisitionRunKyc
  split <;> rfl

theorem foldl_store_rows (agentOf : String → Except String AgentDict)
    (ts : List String) (st : DbState) :
    (ts.foldl (fun s t => store_agent_result s 0 (materializeOutcome t (agentOf t))) st).rows
      = st.rows ++ ts.map (fun t => toStored (materializeOutcome t (agentOf t))) := by
  induction ts generalizing st with
  | nil => simp
  | cons t ts ih =>
    simp only [List.foldl_cons, List.map_cons]
    rw [ih, store_agent_result_rows]
    simp [List.append_assoc]

theorem resultCompilationRun_vr (rows : List StoredResult)
    (llm : Except String LlmAnalysis) :
    (resultCompilationRun rows llm).1.verification_result
      = some (if rows.any (fun r => r.status == "error") then "failed"
              else llmDecision llm) := by
  unfold resultCompilationRun llmDecision
  cases han : rows.any (fun r => r.status == "error") <;> cases llm <;> simp [han]

theorem resultCompilationRun_invoked (rows : List StoredResult)
    (llm : Except String LlmAnalysis) :
    (resultCompilationRun rows llm).2
      = !(rows.any (fun r => r.status == "error")) := by
  unfold resultCompilationRun
  cases han : rows.any (fun r => r.status == "error") <;> cases llm <;> simp [han]

theorem resultCompilationRun_agent_type (rows : List StoredResult)
    (llm : Except String LlmAnalysis) :
    (resultCompilationRun rows llm).1.agent_type = "ResultCompilationAgent" := by
  unfold resultCompilationRun
  split
  · rfl
  · cases llm <;> rfl

theorem run_kyc_success (env : KycEnv) (agentOf : String → Except String AgentDict)
    (llm : Except String LlmAnalysis) (v0 : VerificationRow)
    (hs : env.storeOk = true) :
    run_kyc_verification env agentOf llm v0 =
      (let st1 : DbState :=
        ⟨update_verification_status v0 0 "processing" none none,
         [⟨"DataAcquisitionAgent", "success",
           "Successfully acquired data from all sources", []⟩]⟩
       let st2 := kycAgentTypes.foldl
         (fun st t => store_agent_result st 0 (materializeOutcome t (agentOf t))) st1
       let comp := resultCompilationRun st2.rows llm
       let st3 := store_agent_result st2 0 comp.1
       let v3 := update_verification_status st3.verification 0 "completed"
         (some (comp.1.verification_result.getD "failed"))
         (some (comp.1.reasoning.getD ""))
       ⟨⟨v3, st3.rows⟩, [("user", acquireUserData env (v0.user_id.getD ""))],
        "completed", comp.2⟩) := by
  unfold run_kyc_verification dataAcquisitionRunKyc
  rw [hs]
  rfl

/-- An acquisition environment whose underlying inquiry-id query raises; the
other collaborators behave. -/
def kycEnvInquiryFail : KycEnv :=
  { inquiry := .error { opLike := true }, sift := .ok (some "sift-row"),
    persona := fun _ => .ok "persona-payload", storeOk := true }

/-- An acquisition environment whose input persist raises. -/
def kycEnvStoreFail : KycEnv :=
  { inquiry := .ok (some "inq-1"), sift := .ok none,
    persona := fun _ => .ok "persona-payload", storeOk := false }

/-- A well-behaved acquisition environment. -/
def kycEnvAllOk : KycEnv :=
  { inquiry := .ok (some "inq-1"), sift := .ok (some "sift-row"),
    persona := fun _ => .ok "persona-payload", storeOk := true }

/-- Fan-out outcomes where every agent returns a success dict. -/
def allOkAgents : String → Except String AgentDict :=
  fun t => .ok { agent_type := t, status := "success", details := "ok" }

/-- Fan-out outcomes where one agent raises and the other nine succeed. -/
def oneFailsAgents : String → Except String AgentDict :=
  fun t =>
    if t == "GovtIdVerification" then .error "boom"
    else .ok { agent_type := t, status := "success", details := "ok" }

/-- A compilation LLM verdict of `passed`. -/
def llmPassed : Except String LlmAnalysis :=
  .ok { verification_result := some "passed", reasoning := some "all good" }

/-- A fresh queued individual verification row. -/
def v0Example : VerificationRow :=
  { verification_id := "v1", user_id := some "u1", status := "queued" }

/-- C1 counterexample: when the underlying inquiry-id query raises, the
verification does *not* terminate failed with a lone error row — acquisition
swallows the failure, the workflow fans out, and the run completes with all
twelve result rows. -/
theorem C1_counterexample :
    (run_kyc_verification kycEnvInquiryFail allOkAgents llmPassed v0Example).db.verification.status
      = "completed"
    ∧ (run_kyc_verification kycEnvInquiryFail allOkAgents llmPassed v0Example).db.verification.reason
      ≠ some "Data acquisition failed"
    ∧ (run_kyc_verification kycEnvInquiryFail allOkAgents llmPassed v0Example).db.rows.length
      = 12 := by
  refine ⟨rfl, by decide, rfl⟩

/-- C1 (amended): a failing inquiry-id query leaves data acquisition
successful — the agent reports `status="success"` with a `None` inquiry id
and empty Persona payload, and the workflow proceeds; the workflow terminates
with `status=failed`, `reason="Data acquisition failed"` and exactly one
stored row (a `DataAcquisitionAgent` row with `status=error`) precisely when
the acquisition agent itself returns an error dict, which happens when
persisting the acquired inputs raises. -/
theorem C1_amended :
    (∀ (e : DbErr) (sift : Except DbErr (Option String))
        (persona : String → Except String String) (uid : String),
      (dataAcquisitionRunKyc ⟨.error e, sift, persona, true⟩ uid).1.status = "success"
      ∧ (dataAcquisitionRunKyc ⟨.error e, sift, persona, true⟩ uid).2
          = [("user", { user_id := uid, persona_enquiry_id := none,
                        persona_data := none,
                        sift_data := (get_sift_scores sift).result })])
    ∧ (∀ (env : KycEnv) (agentOf : String → Except String AgentDict)
        (llm : Except String LlmAnalysis) (v0 : VerificationRow),
      (dataAcquisitionRunKyc env (v0.user_id.getD "")).1.status = "error" →
      (run_kyc_verification env agentOf llm v0).db.verification.status = "failed"
      ∧ (run_kyc_verification env agentOf llm v0).db.verification.result = some "failed"
      ∧ (run_kyc_verification env agentOf llm v0).db.verification.reason
          = some "Data acquisition failed"
      ∧ (run_kyc_verification env agentOf llm v0).ret = "failed"
      ∧ (run_kyc_verification env agentOf llm v0).db.rows.map
            (fun r => (r.agent_type, r.status))
          = [("DataAcquisitionAgent", "error")]) := by
  constructor
  · intro e sift persona uid
    exact ⟨rfl, rfl⟩
  · intro env agentOf llm v0 h
    have hat := dataAcquisitionRunKyc_agent_type env (v0.user_id.getD "")
    unfold run_kyc_verification
    dsimp only
    rw [h]
    refine ⟨rfl, rfl, rfl, rfl, ?_⟩
    dsimp only
    rw [store_agent_result_rows]
    simp [toStored, hat, h]

/-- Witness for C1: with a raising input persist, the acquisition agent
returns an error dict and the workflow ends failed with the single
`DataAcquisitionAgent` error row. -/
theorem C1_witness :
    (run_kyc_verification kycEnvStoreFail allOkAgents llmPassed v0Example).db.verification.reason
      = some "Data acquisition failed"
    ∧ (run_kyc_verification kycEnvStoreFail allOkAgents llmPassed v0Example).db.rows.map
        (fun r => (r.agent_type, r.status))
      = [("DataAcquisitionAgent", "error")] := by
  have h := C1_amended.2 kycEnvStoreFail allOkAgents llmPassed v0Example rfl
  exact ⟨h.2.2.1, h.2.2.2.2⟩

/-- C2 counterexample: with one fan-out agent raising and an LLM verdict of
`passed`, the compiler never invokes the LLM and the decision is the fixed
`failed` — the error rows are not compiled through the LLM. -/
theorem C2_counterexample :
    (run_kyc_verification kycEnvAllOk oneFailsAgents llmPassed v0Example).llmInvoked = false
    ∧ (run_kyc_verification kycEnvAllOk oneFailsAgents llmPassed v0Example).db.verification.result
      = some "failed"
    ∧ (run_kyc_verification kycEnvAllOk oneFailsAgents llmPassed v0Example).db.verification.status
      = "completed"
    ∧ llmDecision llmPassed = "passed" := by
  refine ⟨rfl, rfl, rfl, rfl⟩

theorem toStored_agent_type (ar : AgentDict) :
    (toStored ar).agent_type = ar.agent_type := rfl

theorem update_verification_status_result_truthy (v : VerificationRow) (now : Nat)
    (s : String) (r rsn : Option String) (h : pyTruthy r = true) :
    (update_verification_status v now s r rsn).result = r := by
  unfold update_verification_status
  simp [h]

/-- C2 (amended): when acquisition persists its inputs, every fan-out agent —
raising or not — contributes exactly one stored row, compilation always runs
and the verification completes; but the decision is LLM-derived only when no
stored row has `status=error`: any error row short-circuits the compiler to
`failed` without invoking the LLM. -/
theorem C2_amended (env : KycEnv) (agentOf : String → Except String AgentDict)
    (llm : Except String LlmAnalysis) (v0 : VerificationRow)
    (hs : env.storeOk = true)
    (hag : ∀ t, (materializeOutcome t (agentOf t)).agent_type = t)
    (hdec : llmDecision llm ≠ "") :
    (run_kyc_verification env agentOf llm v0).db.rows.map (fun r => r.agent_type)
        = "DataAcquisitionAgent" :: (kycAgentTypes ++ ["ResultCompilationAgent"])
    ∧ (run_kyc_verification env agentOf llm v0).db.verification.status = "completed"
    ∧ (run_kyc_verification env agentOf llm v0).llmInvoked
        = !((kycAgentTypes.map (fun t => materializeOutcome t (agentOf t))).any
            (fun r => r.status == "error"))
    ∧ (run_kyc_verification env agentOf llm v0).db.verification.result
        = some (if (kycAgentTypes.map (fun t => materializeOutcome t (agentOf t))).any
              (fun r => r.status == "error") then "failed" else llmDecision llm) := by
  rw [run_kyc_success env agentOf llm v0 hs]
  dsimp only
  refine ⟨?_, rfl, ?_, ?_⟩
  · simp only [store_agent_result_rows, foldl_store_rows, List.map_append,
      List.map_cons, List.map_nil, List.map_map, List.singleton_append,
      List.cons_append, List.nil_append, toStored_agent_type,
      resultCompilationRun_agent_type]
    have hcong : ∀ t ∈ kycAgentTypes,
        ((fun r => r.agent_type) ∘ (fun t => toStored (materializeOutcome t (agentOf t)))) t
          = id t :=
      fun t _ => hag t
    rw [List.map_congr_left hcong, List.map_id]
  · rw [resultCompilationRun_invoked, foldl_store_rows]
    rfl
  · rw [update_verification_status_result_truthy]
    · rw [resultCompilationRun_vr, foldl_store_rows]
      rfl
    · rw [resultCompilationRun_vr, foldl_store_rows]
      simp only [Option.getD_some]
      cases han : (([(⟨"DataAcquisitionAgent", "success",
          "Successfully acquired data from all sources", []⟩ : StoredResult)]
          ++ kycAgentTypes.map (fun t => toStored (materializeOutcome t (agentOf t)))).any
          (fun r => r.status == "error")) with
      | true => rfl
      | false =>
        simp [pyTruthy, hdec]

/-- Witness for C2 at a run with one raising agent: all twelve rows exist in
order, the run completes, the LLM is skipped, and the decision is `failed`. -/
theorem C2_witness :
    (run_kyc_verification kycEnvAllOk oneFailsAgents llmPassed v0Example).db.rows.map
        (fun r => r.agent_type)
      = "DataAcquisitionAgent" :: (kycAgentTypes ++ ["ResultCompilationAgent"])
    ∧ (run_kyc_verification kycEnvAllOk oneFailsAgents llmPassed v0Example).db.verification.status
      = "completed"
    ∧ (run_kyc_verification kycEnvAllOk oneFailsAgents llmPassed v0Example).llmInvoked
      = !((kycAgentTypes.map (fun t => materializeOutcome t (oneFailsAgents t))).any
          (fun r => r.status == "error"))
    ∧ (run_kyc_verification kycEnvAllOk oneFailsAgents llmPassed v0Example).db.verification.result
      = some (if (kycAgentTypes.map (fun t => materializeOutcome t (oneFailsAgents t))).any
            (fun r => r.status == "error") then "failed" else llmDecision llmPassed) := by
  refine C2_amended kycEnvAllOk oneFailsAgents llmPassed v0Example rfl ?_ (by decide)
  intro t
  unfold oneFailsAgents
  split <;> rfl

theorem waitGo_some_spec (children : List (Nat → Option String)) :
    ∀ (fuel k m : Nat), waitGo children (30 * k) fuel = some m →
      m ≤ 59 ∧ allUboTerminalAt children m = true
      ∧ (∀ j, k ≤ j → j < m → allUboTerminalAt children j = false)
      ∧ k ≤ m := by
  intro fuel
  induction fuel with
  | zero =>
    intro k m h
    exact absurd h (by simp [waitGo])
  | succ fuel ih =>
    intro k m h
    rw [waitGo] at h
    by_cases hk : 30 * k < 1800
    · rw [if_pos hk] at h
      have hdiv : 30 * k / 30 = k := by omega
      rw [hdiv] at h
      cases hb : allUboTerminalAt children k with
      | true =>
        rw [hb] at h
        simp only [if_pos] at h
        cases h
        exact ⟨by omega, hb, fun j hj1 hj2 => by omega, Nat.le_refl k⟩
      | false =>
        rw [hb] at h
        simp only [Bool.false_eq_true, if_false] at h
        rw [show 30 * k + 30 = 30 * (k + 1) by ring] at h
        obtain ⟨hm59, hterm, hnone, hkm⟩ := ih (k + 1) m h
        refine ⟨hm59, hterm, ?_, by omega⟩
        intro j hj1 hj2
        by_cases hjk : j = k
        · rw [hjk]
          exact hb
        · exact hnone j (by omega) hj2
    · rw [if_neg hk] at h
      exact absurd h (by simp)

theorem waitGo_none_spec (children : List (Nat → Option String)) :
    ∀ (fuel k : Nat), waitGo children (30 * k) fuel = none →
      ∀ j, k ≤ j → j < k + fuel → j ≤ 59 → allUboTerminalAt children j = false := by
  intro fuel
  induction fuel with
  | zero =>
    intro k h j hj1 hj2 hj3
    omega
  | succ fuel ih =>
    intro k h j hj1 hj2 hj3
    rw [waitGo] at h
    by_cases hk : 30 * k < 1800
    · rw [if_pos hk] at h
      have hdiv : 30 * k / 30 = k := by omega
      rw [hdiv] at h
      cases hb : allUboTerminalAt children k with
      | true =>
        rw [hb] at h
        simp at h
      | false =>
        rw [hb] at h
        simp only [Bool.false_eq_true, if_false] at h
        rw [show 30 * k + 30 = 30 * (k + 1) by ring] at h
        by_cases hjk : j = k
        · rw [hjk]
          exact hb
        · exact ih (k + 1) h j (by omega) (by omega) hj3
    · omega

theorem businessResultCompilationRun_agent_type (bizRows : List StoredResult)
    (uboData : List UboDbView) (llm : Except String LlmAnalysis) :
    (businessResultCompilationRun bizRows uboData llm).1.agent_type
      = "BusinessResultCompilationAgent" := by
  unfold businessResultCompilationRun
  cases buildUboResults uboData with
  | error e => rfl
  | ok rs =>
    dsimp only
    split
    · rfl
    · cases llm <;> rfl

/-- C3: the UBO join polls every 30 seconds (one poll per 30 s of elapsed
time); it returns at the first poll at which every child is terminal, and
only polls indices 0..59 (at most 30 minutes); when the deadline elapses with
some child non-terminal at every poll, the parent is not failed — the
business tail still stores the compilation row and completes the parent with
whatever child state the compiler then sees. -/
theorem C3_ubo_join (children : List (Nat → Option String)) (st : DbState)
    (uboData : List UboDbView) (llm : Except String LlmAnalysis) :
    (match wait_for_ubo_verifications children with
     | some k => k ≤ 59 ∧ allUboTerminalAt children k = true
         ∧ ∀ j, j < k → allUboTerminalAt children j = false
     | none => ∀ j, j ≤ 59 → allUboTerminalAt children j = false)
    ∧ (businessTail st children uboData llm).1.verification.status = "completed"
    ∧ (businessTail st children uboData llm).1.rows.map (fun r => r.agent_type)
        = st.rows.map (fun r => r.agent_type) ++ ["BusinessResultCompilationAgent"] := by
  refine ⟨?_, rfl, ?_⟩
  · cases hw : wait_for_ubo_verifications children with
    | some m =>
      have h0 : waitGo children (30 * 0) 61 = some m := by
        rw [show 30 * 0 = 0 by ring]
        exact hw
      obtain ⟨hm59, hterm, hnone, _⟩ := waitGo_some_spec children 61 0 m h0
      exact ⟨hm59, hterm, fun j hj => hnone j (Nat.zero_le j) hj⟩
    | none =>
      intro j hj
      have h0 : waitGo children (30 * 0) 61 = none := by
        rw [show 30 * 0 = 0 by ring]
        exact hw
      exact waitGo_none_spec children 61 0 h0 j (Nat.zero_le j) (by omega) hj
  · unfold businessTail
    dsimp only
    rw [store_agent_result_rows]
    simp only [List.map_append, List.map_cons, List.map_nil, toStored_agent_type,
      businessResultCompilationRun_agent_type]

theorem buildUboResults_error (uboData : List UboDbView)
    (h : ∃ u ∈ uboData,
      (u.rows.find? (fun r => r.agent_type == "ResultCompilationAgent")).isSome) :
    buildUboResults uboData = .error (.attributeError "verification_result") := by
  induction uboData with
  | nil =>
    obtain ⟨u, hu, _⟩ := h
    exact absurd hu (List.not_mem_nil u)
  | cons u us ih =>
    unfold buildUboResults
    rw [List.mapM_cons]
    cases hf : u.rows.find? (fun r => r.agent_type == "ResultCompilationAgent") with
    | some r =>
      simp only [hf]
      rfl
    | none =>
      obtain ⟨w, hw, hws⟩ := h
      rcases List.mem_cons.mp hw with hwu | hwus
      · rw [hwu] at hws
        rw [hf] at hws
        simp at hws
      · have hus := ih ⟨w, hwus, hws⟩
        unfold buildUboResults at hus
        simp only [hf, hus]
        rfl

/-- C10: whenever some UBO child has a stored `ResultCompilationAgent` row,
the business compiler's read of the undefined `verification_result` attribute
raises, the catch-all returns the error dict with
`verification_result="failed"` and no LLM call, and storing that dict marks
the parent verification `completed` with result `failed`. -/
theorem C10_business_compilation_attr (uboData : List UboDbView)
    (bizRows : List StoredResult) (llm : Except String LlmAnalysis) (st : DbState)
    (h : ∃ u ∈ uboData,
      (u.rows.find? (fun r => r.agent_type == "ResultCompilationAgent")).isSome) :
    (businessResultCompilationRun bizRows uboData llm).1.status = "error"
    ∧ (businessResultCompilationRun bizRows uboData llm).1.verification_result
      = some "failed"
    ∧ (businessResultCompilationRun bizRows uboData llm).2 = false
    ∧ (store_agent_result st 0
        (businessResultCompilationRun bizRows uboData llm).1).verification.status
      = "completed"
    ∧ (store_agent_result st 0
        (businessResultCompilationRun bizRows uboData llm).1).verification.result
      = some "failed" := by
  have he := buildUboResults_error uboData h
  unfold businessResultCompilationRun
  rw [he]
  exact ⟨rfl, rfl, rfl, rfl, rfl⟩

/-- A UBO child carrying a stored individual compilation row. -/
def c10Child : UboDbView :=
  { vid := "child-1",
    verification := some { verification_id := "child-1", user_id := some "u1",
                           status := "completed" },
    rows := [⟨"ResultCompilationAgent", "success", "compiled", []⟩] }

/-- A parent DB slice right before business compilation. -/
def c10ParentState : DbState :=
  { verification := { verification_id := "biz-1", business_id := some "b1",
                      status := "processing" },
    rows := [] }

/-- Witness for C10 at one concrete child with a stored compilation row. -/
theorem C10_witness :
    (businessResultCompilationRun [] [c10Child] llmPassed).1.status = "error"
    ∧ (businessResultCompilationRun [] [c10Child] llmPassed).1.verification_result
      = some "failed"
    ∧ (store_agent_result c10ParentState 0
        (businessResultCompilationRun [] [c10Child] llmPassed).1).verification.status
      = "completed"
    ∧ (store_agent_result c10ParentState 0
        (businessResultCompilationRun [] [c10Child] llmPassed).1).verification.result
      = some "failed" := by
  have h := C10_business_compilation_attr [c10Child] [] llmPassed c10ParentState
    ⟨c10Child, by decide, by decide⟩
  exact ⟨h.1, h.2.1, h.2.2.2.1, h.2.2.2.2⟩

/-- An external store holding a business record with a `user_id` and two UBO
owner rows with user ids: the configuration the UBO pipeline is meant for. -/
def c4BizEnv : Nat → Except DbErr (Option KybRecord) :=
  fun _ => .ok (some { id := "b1", user_id := some "u9",
                       business_name := "Acme LLC" })

/-- C4 (code bug): even with a business record that has a `user_id` (so UBO
owner rows with user ids would be fetched next), the acquired `ubos` list is
empty — the two-argument `get_persona_inquiry_id` call raises `TypeError`
before the UBO assembly, the catch-all persists `ubos = []`, and the worker's
fan-out loop therefore emits no create/link/enqueue events at all.  The loop
itself, fed one UBO entry with a user id, would emit exactly
created-`queued` → committed link → enqueued job with the parent business id
in the payload. -/
theorem C4_kyb_inquiry_arity :
    (acquire_business_data c4BizEnv "b1").ubos = []
    ∧ uboFanout (fun k => String.append "child-" (toString k)) "b1" "parent-v" true
        (acquire_business_data c4BizEnv "b1").ubos = ([], [])
    ∧ get_persona_inquiry_id_two_arg_call "u9" "kyb"
      = .error (.typeError
          "get_persona_inquiry_id takes 2 positional arguments but 3 were given")
    ∧ uboFanout (fun k => String.append "child-" (toString k)) "b1" "parent-v" true
        [{ ubo_info := { created_for_id := some "u9" } }]
      = ([BizEvent.createVerification "child-0" "u9" "queued",
          BizEvent.commitUboLink "parent-v" "u9" "child-0",
          BizEvent.enqueueJob "run_kyc_verification" "child-0" "u9" "b1" "UBO"],
         ["child-0"]) := by
  exact ⟨rfl, rfl, rfl, rfl⟩

/-- One UBO child that is still processing at polls 0 and 1 and terminal from
poll 2 on. -/
def c3Children : List (Nat → Option String) :=
  [fun k => if k < 2 then some "processing" else some "completed"]

/-- Witness for C3 at one concrete child trace: the parent still completes
and the join characterisation holds. -/
theorem C3_witness :
    (businessTail c10ParentState c3Children [] llmPassed).1.verification.status
      = "completed"
    ∧ (match wait_for_ubo_verifications c3Children with
       | some k => k ≤ 59 ∧ allUboTerminalAt c3Children k = true
           ∧ ∀ j, j < k → allUboTerminalAt c3Children j = false
       | none => ∀ j, j ≤ 59 → allUboTerminalAt c3Children j = false) := by
  have h := C3_ubo_join c3Children c10ParentState [] llmPassed
  exact ⟨h.2.1, h.1⟩

/-- Witness for C8 at the concrete provider item of the counterexample
input. -/
theorem C8_witness :
    ∃ c : Check,
      (idSelfieRun c8Included (.ok "analysed")).checks.find?
          (fun ck => ck.name == "ID to Selfie Comparison") = some c
      ∧ (c.status = "passed" ↔
          (selfieStatusOf c8Included = "passed" ∧ 70 ≤ selfieConfidenceOf c8Included)) :=
  C8_amended c8Included "analysed"
